import Mathlib

/-!
Verification of the identity-federation and session-issuance subsystem:
token service (lib/jwt.ts), session-guard middleware (middleware/auth.ts),
startup configuration checks (index.ts), the Prisma-backed repositories
(repository/mysql) and the authentication orchestrator (service/auth-service.ts).

Machine integers do not overflow in this subsystem (ids and timestamps), so
ids and times are modelled as Nat.  Promises are modelled by explicit state
passing; thrown exceptions by Except.
-/

/-! ### Token service — lib/jwt.ts on top of the jsonwebtoken library

A JSON web token on the wire either parses as a signed header.payload.signature
triple or is malformed.  The HMAC-SHA256 signature is modelled as a concrete
function of the secret and the signed payload. -/

structure JWTPayload where
  userId : Nat
  iat : Nat
  exp : Nat
deriving DecidableEq, Repr

def hmacSha256 (secret : String) (p : JWTPayload) : Nat :=
  Nat.pair secret.length (Nat.pair p.userId (Nat.pair p.iat p.exp))

/-- A string presented as a token: either it parses as a payload plus a
signature value, or it is malformed (not a decodable JWS). -/
inductive TokenStr where
  | signed (payload : JWTPayload) (sig : Nat)
  | malformed (raw : String)
deriving DecidableEq, Repr

/-- The two failure classes of the jsonwebtoken library: JsonWebTokenError
(malformed token or bad signature) and TokenExpiredError. -/
inductive JwtError where
  | jsonWebTokenError
  | tokenExpiredError
deriving DecidableEq, Repr

/-- jwt.sign of the jsonwebtoken library: sets iat to the current time and
exp to iat + expiresIn, then signs with the secret. -/
def jwtSign (secret : String) (expiresIn : Nat) (userId : Nat) (now : Nat) : TokenStr :=
  TokenStr.signed ⟨userId, now, now + expiresIn⟩ (hmacSha256 secret ⟨userId, now, now + expiresIn⟩)

/-- jwt.verify of the jsonwebtoken library: rejects a malformed token or a bad
signature with JsonWebTokenError; a well-signed token whose exp is not in the
future (clockTimestamp >= exp) with TokenExpiredError; otherwise returns the
decoded payload. -/
def jwtVerify (secret : String) (t : TokenStr) (now : Nat) : Except JwtError JWTPayload :=
  match t with
  | TokenStr.malformed _ => Except.error JwtError.jsonWebTokenError
  | TokenStr.signed p sig =>
    if sig = hmacSha256 secret p then
      if p.exp ≤ now then Except.error JwtError.tokenExpiredError
      else Except.ok p
    else Except.error JwtError.jsonWebTokenError

/-- generateToken from lib/jwt.ts: jwt.sign({ userId }, JWT_SECRET,
{ expiresIn: JWT_EXPIRATION }).  The module-level JWT_SECRET and
JWT_EXPIRATION configuration are explicit parameters. -/
def generateToken (secret : String) (expiresIn : Nat) (userId : Nat) (now : Nat) : TokenStr :=
  jwtSign secret expiresIn userId now

/-- verifyToken from lib/jwt.ts: try jwt.verify, and on any thrown error
return null. -/
def verifyToken (secret : String) (t : TokenStr) (now : Nat) : Option JWTPayload :=
  match jwtVerify secret t now with
  | Except.ok p => some p
  | Except.error _ => none

/-! ### Session guard — middleware/auth.ts -/

/-- The value of an Authorization header: either a string that does not start
with "Bearer ", or "Bearer " followed by a token string. -/
inductive HeaderVal where
  | notBearer (s : String)
  | bearer (t : TokenStr)
deriving DecidableEq, Repr

structure AuthRequest where
  authorization : Option HeaderVal
deriving DecidableEq, Repr

/-- What the middleware does with a request: respond directly with a status
and error body, or set req.userId and call next(). -/
inductive MwOutcome where
  | respond (status : Nat) (error : String)
  | callNext (userId : Nat)
deriving DecidableEq, Repr

/-- authMiddleware from middleware/auth.ts: 401 when the header is absent or
not of Bearer form, 401 when verifyToken returns null, otherwise attach the
payload userId and call next(). -/
def authMiddleware (secret : String) (now : Nat) (req : AuthRequest) : MwOutcome :=
  match req.authorization with
  | none => MwOutcome.respond 401 "No token provided"
  | some (HeaderVal.notBearer _) => MwOutcome.respond 401 "No token provided"
  | some (HeaderVal.bearer t) =>
    match verifyToken secret t now with
    | none => MwOutcome.respond 401 "Invalid or expired token"
    | some payload => MwOutcome.callNext payload.userId

/-! ### Startup configuration — index.ts and lib/jwt.ts module initialisation -/

structure Env where
  GOOGLE_CLIENT_ID : Option String
  GOOGLE_CLIENT_SECRET : Option String
  GOOGLE_CALLBACK_URL : Option String
  JWT_SECRET : Option String
  JWT_EXPIRATION : Option String
deriving DecidableEq, Repr

structure AppConfig where
  googleClientId : String
  googleClientSecret : String
  googleCallbackUrl : String
  jwtSecret : String
  jwtExpiration : String
deriving DecidableEq, Repr

/-- JavaScript falsiness of an environment variable: undefined or empty. -/
def falsy : Option String → Bool
  | none => true
  | some s => s = ""

/-- JavaScript `x || d` on an environment variable. -/
def orDefault (o : Option String) (d : String) : String :=
  match o with
  | none => d
  | some s => if s = "" then d else s

/-- The startup environment checks of index.ts together with the module-level
initialisation of lib/jwt.ts: GOOGLE_CLIENT_ID, GOOGLE_CLIENT_SECRET,
GOOGLE_CALLBACK_URL and JWT_SECRET each throw when missing; JWT_EXPIRATION
falls back to the literal default used in `process.env.JWT_EXPIRATION || ...`. -/
def startupCheck (env : Env) : Except String AppConfig :=
  if falsy env.GOOGLE_CLIENT_ID then
    Except.error "GOOGLE_CLIENT_ID environment variable is required"
  else if falsy env.GOOGLE_CLIENT_SECRET then
    Except.error "GOOGLE_CLIENT_SECRET environment variable is required"
  else if falsy env.GOOGLE_CALLBACK_URL then
    Except.error "GOOGLE_CALLBACK_URL environment variable is required"
  else if falsy env.JWT_SECRET then
    Except.error "JWT_SECRET environment variable is required"
  else
    Except.ok
      { googleClientId := env.GOOGLE_CLIENT_ID.getD ""
        googleClientSecret := env.GOOGLE_CLIENT_SECRET.getD ""
        googleCallbackUrl := env.GOOGLE_CALLBACK_URL.getD ""
        jwtSecret := env.JWT_SECRET.getD ""
        jwtExpiration := orDefault env.JWT_EXPIRATION "30d" }

/-! ### Database model — prisma schema (migration part) and the mysql repositories

Rows of the three tables touched by account bootstrap, with the two unique
constraints of the migration: users_email_key on users(email) and
accounts_provider_provider_account_id_key on accounts(provider,
provider_account_id). -/

inductive CharacterCode where
  | TRAECHAN
  | MASTER
deriving DecidableEq, Repr

structure DBUser where
  id : Nat
  email : Option String
  name : Option String
  avatarUrl : Option String
deriving DecidableEq, Repr

structure DBAuthAccount where
  id : Nat
  provider : String
  providerAccountId : String
  userId : Nat
deriving DecidableEq, Repr

structure DBUserCharacter where
  id : Nat
  characterCode : CharacterCode
  isActive : Bool
  nickName : String
  userId : Nat
deriving DecidableEq, Repr

structure DBState where
  users : List DBUser
  authAccounts : List DBAuthAccount
  userCharacters : List DBUserCharacter
  nextUserId : Nat
  nextAuthAccountId : Nat
  nextUserCharacterId : Nat
deriving DecidableEq, Repr

/-- A database error thrown by a Prisma create: a unique-constraint
violation, named after the violated index. -/
inductive RepoErr where
  | uniqueViolation (constraintName : String)
deriving DecidableEq, Repr

/-- A state-threading database action that can throw; an error carries the
state at the moment of failure, so that partial writes are observable unless
a transaction discards them. -/
abbrev DBResult (α : Type) := Except (RepoErr × DBState) (DBState × α)

def emailTaken (s : DBState) (email : Option String) : Bool :=
  match email with
  | none => false
  | some e => s.users.any (fun u => u.email == some e)

def providerTaken (s : DBState) (provider providerAccountId : String) : Bool :=
  s.authAccounts.any (fun a => a.provider == provider && a.providerAccountId == providerAccountId)

structure UserCreateData where
  avatarUrl : Option String
  email : Option String
  name : Option String
deriving DecidableEq, Repr

structure AuthAccountCreateData where
  provider : String
  providerAccountId : String
  userId : Nat
deriving DecidableEq, Repr

structure UserCharacterCreateData where
  characterCode : CharacterCode
  isActive : Bool
  nickName : String
  userId : Nat
deriving DecidableEq, Repr

/-- tx.user.create: fails on the users_email_key unique constraint, otherwise
inserts a row with the next id. -/
def txUserCreate (s : DBState) (d : UserCreateData) : DBResult DBUser :=
  if emailTaken s d.email then
    Except.error (RepoErr.uniqueViolation "users_email_key", s)
  else
    let u : DBUser := ⟨s.nextUserId, d.email, d.name, d.avatarUrl⟩
    Except.ok ({ s with users := s.users ++ [u], nextUserId := s.nextUserId + 1 }, u)

/-- tx.authAccount.create: fails on the unique constraint on
(provider, provider_account_id), otherwise inserts a row with the next id. -/
def txAuthAccountCreate (s : DBState) (d : AuthAccountCreateData) : DBResult DBAuthAccount :=
  if providerTaken s d.provider d.providerAccountId then
    Except.error (RepoErr.uniqueViolation "accounts_provider_provider_account_id_key", s)
  else
    let a : DBAuthAccount := ⟨s.nextAuthAccountId, d.provider, d.providerAccountId, d.userId⟩
    Except.ok ({ s with authAccounts := s.authAccounts ++ [a],
                        nextAuthAccountId := s.nextAuthAccountId + 1 }, a)

/-- tx.userCharacter.create: no unique constraint; always inserts. -/
def txUserCharacterCreate (s : DBState) (d : UserCharacterCreateData) : DBResult DBUserCharacter :=
  let c : DBUserCharacter := ⟨s.nextUserCharacterId, d.characterCode, d.isActive, d.nickName, d.userId⟩
  Except.ok ({ s with userCharacters := s.userCharacters ++ [c],
                      nextUserCharacterId := s.nextUserCharacterId + 1 }, c)

/-- prisma.$transaction: run the body; if it throws, roll back — the partial
state inside the body is discarded and the error is re-thrown against the
original state. -/
def prismaTransaction {α : Type} (s : DBState) (body : DBState → DBResult α) : DBResult α :=
  match body s with
  | Except.ok r => Except.ok r
  | Except.error (e, _) => Except.error (e, s)

/-- The service-layer input of user registration
(CreateUserRegistrationInput): the authAccount part, the user part and the
userCharacter part, with the optional fields of the source type. -/
structure CreateUserRegistrationInput where
  authAccountProvider : String
  authAccountProviderAccountId : String
  userAvatarUrl : Option String
  userEmail : Option String
  userName : Option String
  userCharacterCharacterCode : CharacterCode
  userCharacterIsActive : Option Bool
  userCharacterNickName : String
deriving DecidableEq, Repr

/-- PrismaUserRegistrationRepository.createUserWithAuthAndCharacter: inside one
prisma.$transaction, create the User, the AuthAccount pointing at it, and the
UserCharacter pointing at it (isActive defaulting to false via `?? false`),
returning the created user. -/
def createUserWithAuthAndCharacter (s : DBState) (data : CreateUserRegistrationInput) : DBResult DBUser :=
  prismaTransaction s (fun tx =>
    match txUserCreate tx ⟨data.userAvatarUrl, data.userEmail, data.userName⟩ with
    | Except.error e => Except.error e
    | Except.ok (tx1, user) =>
      match txAuthAccountCreate tx1 ⟨data.authAccountProvider, data.authAccountProviderAccountId, user.id⟩ with
      | Except.error e => Except.error e
      | Except.ok (tx2, _) =>
        match txUserCharacterCreate tx2
            ⟨data.userCharacterCharacterCode, data.userCharacterIsActive.getD false,
             data.userCharacterNickName, user.id⟩ with
        | Except.error e => Except.error e
        | Except.ok (tx3, _) => Except.ok (tx3, user))

/-- The account row together with its included user, as returned by
findByProvider with `include: { user: true }`. -/
structure AccountWithUser where
  account : DBAuthAccount
  user : DBUser
deriving DecidableEq, Repr

/-- PrismaAuthAccountRepository.findByProvider: findUnique on the
(provider, providerAccountId) key, including the owning user. -/
def findByProvider (s : DBState) (provider providerAccountId : String) : Option AccountWithUser :=
  match s.authAccounts.find? (fun a => a.provider == provider && a.providerAccountId == providerAccountId) with
  | none => none
  | some a =>
    match s.users.find? (fun u => u.id == a.userId) with
    | none => none
    | some u => some ⟨a, u⟩

/-! ### Authentication orchestrator — service/auth-service.ts -/

/-- GoogleUserInfo from client/google-oauth.ts: id, email and name are
required, picture is optional. -/
structure GoogleUserInfo where
  email : String
  id : String
  name : String
  picture : Option String
deriving DecidableEq, Repr

/-- Errors that escape authenticateWithGoogle: a failed identity exchange at
the Google client, or a repository error thrown by a Prisma call. -/
inductive AuthErr where
  | identityExchangeFailed (msg : String)
  | repoError (e : RepoErr)
deriving DecidableEq, Repr

/-- The injected repository collaborators of the service, over an abstract
store type, exactly the `repository` parameter of authenticateWithGoogle. -/
structure RepoDeps (σ : Type) where
  findByProvider : σ → String → String → Option AccountWithUser
  createUserWithAuthAccountAndUserCharacterTx :
    σ → CreateUserRegistrationInput → Except (RepoErr × σ) (σ × DBUser)

structure AuthenticateWithGoogleResult where
  isNewUser : Bool
  jwtToken : TokenStr
  user : DBUser
deriving DecidableEq, Repr

/-- The registration input built inline in the new-user branch of
authenticateWithGoogle: provider google with the Google subject id, the user
fields copied from the Google profile, and the default TRAECHAN character,
active, nicknamed トレちゃん. -/
def registrationInput (googleUser : GoogleUserInfo) : CreateUserRegistrationInput :=
  ⟨"google", googleUser.id,
   googleUser.picture, some googleUser.email, some googleUser.name,
   CharacterCode.TRAECHAN, some true, "トレちゃん"⟩

/-- authenticateWithGoogle from service/auth-service.ts: exchange the code at
the Google client, look for an existing account by (google, googleUser.id),
reuse its user when found, otherwise create user + auth account + character in
one repository transaction; finally issue a JWT for the user id.  Thrown
collaborator errors propagate unchanged. -/
def authenticateWithGoogle {σ : Type} (secret : String) (expiresIn : Nat) (now : Nat)
    (repository : RepoDeps σ) (googleAuthClient : String → Except String GoogleUserInfo)
    (code : String) (s : σ) : Except AuthErr (σ × AuthenticateWithGoogleResult) :=
  match googleAuthClient code with
  | Except.error msg => Except.error (AuthErr.identityExchangeFailed msg)
  | Except.ok googleUser =>
    match repository.findByProvider s "google" googleUser.id with
    | some existingAccount =>
      Except.ok (s, ⟨false, generateToken secret expiresIn existingAccount.user.id now,
                     existingAccount.user⟩)
    | none =>
      match repository.createUserWithAuthAccountAndUserCharacterTx s (registrationInput googleUser) with
      | Except.error (e, _) => Except.error (AuthErr.repoError e)
      | Except.ok (s1, user) =>
        Except.ok (s1, ⟨true, generateToken secret expiresIn user.id now, user⟩)

/-- The production wiring of index.ts: the Prisma repositories over DBState. -/
def prismaRepo : RepoDeps DBState :=
  ⟨findByProvider, createUserWithAuthAndCharacter⟩

example : verifyToken "s" (generateToken "s" 10 1 0) 5 = some ⟨1, 0, 10⟩ := by decide
example : verifyToken "s" (TokenStr.malformed "x") 5 = none := by decide
example : authMiddleware "s" 0 ⟨none⟩ = MwOutcome.respond 401 "No token provided" := by decide
example :
    (createUserWithAuthAndCharacter ⟨[], [], [], 1, 1, 1⟩ (registrationInput ⟨"e", "g1", "n", none⟩)).isOk = true := by
  decide

deriving instance DecidableEq for Except

/-! ### Theorems -/

/-- C3: verifying a token immediately after it was issued for a userId (before
the fixed TTL has elapsed) succeeds and recovers the same userId. -/
theorem token_round_trip (secret : String) (expiresIn userId now now2 : Nat)
    (h : now2 < now + expiresIn) :
    ∃ p, verifyToken secret (generateToken secret expiresIn userId now) now2 = some p ∧
      p.userId = userId := by
  refine ⟨⟨userId, now, now + expiresIn⟩, ?_, rfl⟩
  have hle : ¬ (now + expiresIn ≤ now2) := by omega
  simp [verifyToken, generateToken, jwtSign, jwtVerify, hle]

theorem token_round_trip_witness :
    (0 : Nat) < 0 + 10 ∧
    ∃ p, verifyToken "s" (generateToken "s" 10 7 0) 0 = some p ∧ p.userId = 7 :=
  ⟨by decide, token_round_trip "s" 10 7 0 0 (by decide)⟩

/-- C4 counterexample: an expired well-signed token and a badly signed token
produce distinct errors inside the jwt library, but verifyToken returns the
same result (null) for both, so callers cannot distinguish the two failure
kinds from the verify result. -/
theorem verify_failures_indistinguishable :
    jwtVerify "s" (TokenStr.signed ⟨1, 0, 10⟩ (hmacSha256 "s" ⟨1, 0, 10⟩)) 10 =
      Except.error JwtError.tokenExpiredError ∧
    jwtVerify "s" (TokenStr.signed ⟨1, 0, 10⟩ (hmacSha256 "s" ⟨1, 0, 10⟩ + 1)) 5 =
      Except.error JwtError.jsonWebTokenError ∧
    verifyToken "s" (TokenStr.signed ⟨1, 0, 10⟩ (hmacSha256 "s" ⟨1, 0, 10⟩)) 10 =
      verifyToken "s" (TokenStr.signed ⟨1, 0, 10⟩ (hmacSha256 "s" ⟨1, 0, 10⟩ + 1)) 5 := by
  decide

/-- C4 amended: the jwt library distinguishes TokenExpired from TokenInvalid
internally, but verifyToken maps every verification error to null, so the two
failure kinds are not distinguishable from the verify result. -/
theorem verifyToken_collapses_failures (secret : String) (t : TokenStr) (now : Nat)
    (e : JwtError) (h : jwtVerify secret t now = Except.error e) :
    verifyToken secret t now = none := by
  simp [verifyToken, h]

theorem verifyToken_collapses_failures_witness :
    jwtVerify "s" (TokenStr.malformed "x") 0 = Except.error JwtError.jsonWebTokenError ∧
    verifyToken "s" (TokenStr.malformed "x") 0 = none :=
  ⟨by decide,
   verifyToken_collapses_failures "s" (TokenStr.malformed "x") 0
     JwtError.jsonWebTokenError (by decide)⟩

/-- C8: the verify result is fully determined by the signature and the expiry
of the presented token — verification succeeds with payload p exactly when the
token is well-signed for p under the secret and the expiry is in the future;
it consults no stored state (verifyToken takes no repository or DBState). -/
theorem verifyToken_determined_by_signature_and_expiry (secret : String) (t : TokenStr)
    (now : Nat) (p : JWTPayload) :
    verifyToken secret t now = some p ↔
      ∃ sig, t = TokenStr.signed p sig ∧ sig = hmacSha256 secret p ∧ now < p.exp := by
  constructor
  · intro h
    cases t with
    | malformed s => simp [verifyToken, jwtVerify] at h
    | signed q sig =>
      by_cases hsig : sig = hmacSha256 secret q
      · by_cases hexp : q.exp ≤ now
        · simp [verifyToken, jwtVerify, hsig, hexp] at h
        · simp [verifyToken, jwtVerify, hsig, hexp] at h
          subst h
          exact ⟨sig, rfl, hsig, by omega⟩
      · simp [verifyToken, jwtVerify, hsig] at h
  · rintro ⟨sig, rfl, hsig, hexp⟩
    simp [verifyToken, jwtVerify, hsig, Nat.not_le.mpr hexp]

theorem verifyToken_characterization_witness :
    verifyToken "s" (TokenStr.signed ⟨1, 0, 10⟩ (hmacSha256 "s" ⟨1, 0, 10⟩)) 3 =
      some ⟨1, 0, 10⟩ :=
  (verifyToken_determined_by_signature_and_expiry "s"
      (TokenStr.signed ⟨1, 0, 10⟩ (hmacSha256 "s" ⟨1, 0, 10⟩)) 3 ⟨1, 0, 10⟩).mpr
    ⟨hmacSha256 "s" ⟨1, 0, 10⟩, rfl, rfl, by decide⟩

/-- C9: verifyToken is total — for every presented token it returns either the
decoded payload of a successful library verify, or null when the library
verify throws, never propagating the exception. -/
theorem verifyToken_total (secret : String) (t : TokenStr) (now : Nat) :
    (∃ p, jwtVerify secret t now = Except.ok p ∧ verifyToken secret t now = some p) ∨
    (∃ e, jwtVerify secret t now = Except.error e ∧ verifyToken secret t now = none) := by
  cases h : jwtVerify secret t now with
  | ok p => exact Or.inl ⟨p, rfl, by simp [verifyToken, h]⟩
  | error e => exact Or.inr ⟨e, rfl, by simp [verifyToken, h]⟩

/-- C5: the session guard fails closed — every request is either rejected with
a 401 response (header absent, header not of Bearer form, or token
unverifiable) without calling next(), or carries a Bearer token that verifies
to a payload and next() runs with exactly that verified userId. -/
theorem authMiddleware_fail_closed (secret : String) (now : Nat) (req : AuthRequest) :
    (∃ msg, authMiddleware secret now req = MwOutcome.respond 401 msg ∧
      (req.authorization = none ∨
       (∃ s, req.authorization = some (HeaderVal.notBearer s)) ∨
       (∃ t, req.authorization = some (HeaderVal.bearer t) ∧ verifyToken secret t now = none))) ∨
    (∃ t p, req.authorization = some (HeaderVal.bearer t) ∧ verifyToken secret t now = some p ∧
      authMiddleware secret now req = MwOutcome.callNext p.userId) := by
  rcases req with ⟨_ | hv⟩
  · exact Or.inl ⟨"No token provided", rfl, Or.inl rfl⟩
  · cases hv with
    | notBearer s => exact Or.inl ⟨"No token provided", rfl, Or.inr (Or.inl ⟨s, rfl⟩)⟩
    | bearer t =>
      cases h : verifyToken secret t now with
      | none =>
        exact Or.inl ⟨"Invalid or expired token", by simp [authMiddleware, h],
          Or.inr (Or.inr ⟨t, rfl, h⟩)⟩
      | some p =>
        exact Or.inr ⟨t, p, rfl, h, by simp [authMiddleware, h]⟩

/-- C7 counterexample: with the three Google variables and JWT_SECRET present
but JWT_EXPIRATION absent, startup succeeds with the default TTL 30d instead
of failing fatally. -/
theorem startup_missing_ttl_not_fatal :
    startupCheck ⟨some "cid", some "cs", some "url", some "sec", none⟩ =
      Except.ok ⟨"cid", "cs", "url", "sec", "30d"⟩ := by
  decide

/-- C7 amended: GOOGLE_CLIENT_ID, GOOGLE_CLIENT_SECRET, GOOGLE_CALLBACK_URL
and JWT_SECRET are each required at startup (absence of any is a fatal error),
but the token TTL is optional: when all four are present, startup succeeds and
JWT_EXPIRATION falls back to the default 30d when absent. -/
theorem startup_requirements (env : Env) :
    ((falsy env.GOOGLE_CLIENT_ID || falsy env.GOOGLE_CLIENT_SECRET ||
      falsy env.GOOGLE_CALLBACK_URL || falsy env.JWT_SECRET) = true →
      ∃ msg, startupCheck env = Except.error msg) ∧
    ((falsy env.GOOGLE_CLIENT_ID || falsy env.GOOGLE_CLIENT_SECRET ||
      falsy env.GOOGLE_CALLBACK_URL || falsy env.JWT_SECRET) = false →
      startupCheck env = Except.ok
        ⟨env.GOOGLE_CLIENT_ID.getD "", env.GOOGLE_CLIENT_SECRET.getD "",
         env.GOOGLE_CALLBACK_URL.getD "", env.JWT_SECRET.getD "",
         orDefault env.JWT_EXPIRATION "30d"⟩) := by
  constructor
  · intro h
    by_cases h1 : falsy env.GOOGLE_CLIENT_ID
    · exact ⟨"GOOGLE_CLIENT_ID environment variable is required", by simp [startupCheck, h1]⟩
    · by_cases h2 : falsy env.GOOGLE_CLIENT_SECRET
      · exact ⟨"GOOGLE_CLIENT_SECRET environment variable is required",
          by simp [startupCheck, h1, h2]⟩
      · by_cases h3 : falsy env.GOOGLE_CALLBACK_URL
        · exact ⟨"GOOGLE_CALLBACK_URL environment variable is required",
            by simp [startupCheck, h1, h2, h3]⟩
        · by_cases h4 : falsy env.JWT_SECRET
          · exact ⟨"JWT_SECRET environment variable is required",
              by simp [startupCheck, h1, h2, h3, h4]⟩
          · simp [h1, h2, h3, h4] at h
  · intro h
    simp only [Bool.or_eq_false_iff] at h
    obtain ⟨⟨⟨h1, h2⟩, h3⟩, h4⟩ := h
    simp [startupCheck, h1, h2, h3, h4]

theorem startup_requirements_witness :
    (falsy (some "cid") || falsy (some "cs") || falsy (some "url") ||
      falsy (some "sec")) = false ∧
    startupCheck ⟨some "cid", some "cs", some "url", some "sec", some "1h"⟩ =
      Except.ok ⟨"cid", "cs", "url", "sec", "1h"⟩ :=
  ⟨by decide,
   ((startup_requirements ⟨some "cid", some "cs", some "url", some "sec", some "1h"⟩).2
       (by decide)).trans (by decide)⟩

/-- The state produced by a successful account bootstrap: the three rows
appended and the three id counters advanced. -/
def bootstrappedState (s : DBState) (d : CreateUserRegistrationInput) : DBState :=
  ⟨s.users ++ [⟨s.nextUserId, d.userEmail, d.userName, d.userAvatarUrl⟩],
   s.authAccounts ++ [⟨s.nextAuthAccountId, d.authAccountProvider,
     d.authAccountProviderAccountId, s.nextUserId⟩],
   s.userCharacters ++ [⟨s.nextUserCharacterId, d.userCharacterCharacterCode,
     d.userCharacterIsActive.getD false, d.userCharacterNickName, s.nextUserId⟩],
   s.nextUserId + 1, s.nextAuthAccountId + 1, s.nextUserCharacterId + 1⟩

lemma createUserWithAuthAndCharacter_characterization (s : DBState)
    (d : CreateUserRegistrationInput) :
    createUserWithAuthAndCharacter s d =
      if emailTaken s d.userEmail then
        Except.error (RepoErr.uniqueViolation "users_email_key", s)
      else if providerTaken s d.authAccountProvider d.authAccountProviderAccountId then
        Except.error (RepoErr.uniqueViolation "accounts_provider_provider_account_id_key", s)
      else
        Except.ok (bootstrappedState s d, ⟨s.nextUserId, d.userEmail, d.userName, d.userAvatarUrl⟩) := by
  by_cases h1 : emailTaken s d.userEmail
  · simp [createUserWithAuthAndCharacter, prismaTransaction, txUserCreate, h1]
  · by_cases h2 : providerTaken s d.authAccountProvider d.authAccountProviderAccountId
    · have h2b : providerTaken
          { s with users := s.users ++ [⟨s.nextUserId, d.userEmail, d.userName, d.userAvatarUrl⟩],
                   nextUserId := s.nextUserId + 1 }
          d.authAccountProvider d.authAccountProviderAccountId = true := h2
      simp [createUserWithAuthAndCharacter, prismaTransaction, txUserCreate, txAuthAccountCreate,
        h1, h2, h2b]
    · have h2b : providerTaken
          { s with users := s.users ++ [⟨s.nextUserId, d.userEmail, d.userName, d.userAvatarUrl⟩],
                   nextUserId := s.nextUserId + 1 }
          d.authAccountProvider d.authAccountProviderAccountId = false := by
        simpa using h2
      simp [createUserWithAuthAndCharacter, prismaTransaction, txUserCreate, txAuthAccountCreate,
        txUserCharacterCreate, h1, h2, h2b, bootstrappedState]

/-- C2: account bootstrap is atomic — either it succeeds and exactly the
three rows (the user, its auth account, its user character) are appended to
the store, or it fails and the store is returned unchanged, so no partially
created user is observable. -/
theorem bootstrap_atomic (s : DBState) (d : CreateUserRegistrationInput) :
    (∃ s2 u, createUserWithAuthAndCharacter s d = Except.ok (s2, u) ∧
      s2.users = s.users ++ [u] ∧
      (∃ a, s2.authAccounts = s.authAccounts ++ [a] ∧
        a.provider = d.authAccountProvider ∧
        a.providerAccountId = d.authAccountProviderAccountId ∧ a.userId = u.id) ∧
      (∃ c, s2.userCharacters = s.userCharacters ++ [c] ∧ c.userId = u.id ∧
        c.characterCode = d.userCharacterCharacterCode ∧
        c.isActive = d.userCharacterIsActive.getD false ∧
        c.nickName = d.userCharacterNickName)) ∨
    (∃ e, createUserWithAuthAndCharacter s d = Except.error (e, s)) := by
  rw [createUserWithAuthAndCharacter_characterization]
  by_cases h1 : emailTaken s d.userEmail
  · exact Or.inr ⟨RepoErr.uniqueViolation "users_email_key", by simp [h1]⟩
  · by_cases h2 : providerTaken s d.authAccountProvider d.authAccountProviderAccountId
    · exact Or.inr ⟨RepoErr.uniqueViolation "accounts_provider_provider_account_id_key",
        by simp [h1, h2]⟩
    · refine Or.inl ⟨bootstrappedState s d,
        ⟨s.nextUserId, d.userEmail, d.userName, d.userAvatarUrl⟩, by simp [h1, h2], rfl,
        ⟨⟨s.nextAuthAccountId, d.authAccountProvider, d.authAccountProviderAccountId,
          s.nextUserId⟩, rfl, rfl, rfl, rfl⟩,
        ⟨⟨s.nextUserCharacterId, d.userCharacterCharacterCode,
          d.userCharacterIsActive.getD false, d.userCharacterNickName, s.nextUserId⟩,
          rfl, rfl, rfl, rfl, rfl⟩⟩

/-- A Google profile used in concrete scenarios. -/
def demoGoogleUser : GoogleUserInfo := ⟨"u@example.com", "abc123", "U", none⟩

/-- A Google client whose exchange always yields demoGoogleUser. -/
def demoClient : String → Except String GoogleUserInfo :=
  fun _ => Except.ok demoGoogleUser

/-- Repository collaborators observed by a request that loses the bootstrap
race: its resolver ran before the racing writer committed (no link found), so
its insert hits the unique constraint on (provider, provider_account_id). -/
def raceRepo : RepoDeps Unit :=
  ⟨fun _ _ _ => none,
   fun _ _ => Except.error
     (RepoErr.uniqueViolation "accounts_provider_provider_account_id_key", ())⟩

/-- Repository collaborators whose bootstrap fails for a reason other than
the provider-identity race (here the email unique constraint). -/
def failRepo : RepoDeps Unit :=
  ⟨fun _ _ _ => none,
   fun _ _ => Except.error (RepoErr.uniqueViolation "users_email_key", ())⟩

/-- C1 counterexample: when the resolver finds no link and the bootstrap then
fails on the (provider, externalId) uniqueness race, authenticateWithGoogle
returns the raw repository error — it does not re-run the resolver, does not
return the already-created user, and surfaces no AccountProvisioningFailed
variant (AuthErr has none). -/
theorem race_not_recovered :
    authenticateWithGoogle "s" 10 0 raceRepo demoClient "code" () =
      Except.error (AuthErr.repoError
        (RepoErr.uniqueViolation "accounts_provider_provider_account_id_key")) := by
  rfl

/-- C1 amended: authenticateWithGoogle performs no race recovery — whenever
the resolver finds no existing link and the bootstrap transaction fails, for
the uniqueness race or any other reason, the repository error propagates to
the caller unchanged (wrapped only as the thrown repoError), with no second
resolver run and no distinct AccountProvisioningFailed error. -/
theorem bootstrap_failure_propagates {σ : Type} (secret : String) (expiresIn now : Nat)
    (repository : RepoDeps σ) (client : String → Except String GoogleUserInfo)
    (code : String) (s : σ) (g : GoogleUserInfo) (e : RepoErr) (s2 : σ)
    (hclient : client code = Except.ok g)
    (hres : repository.findByProvider s "google" g.id = none)
    (htx : repository.createUserWithAuthAccountAndUserCharacterTx s (registrationInput g) =
      Except.error (e, s2)) :
    authenticateWithGoogle secret expiresIn now repository client code s =
      Except.error (AuthErr.repoError e) := by
  simp [authenticateWithGoogle, hclient, hres, htx]

theorem bootstrap_failure_propagates_witness :
    demoClient "code" = Except.ok demoGoogleUser ∧
    authenticateWithGoogle "s" 10 0 failRepo demoClient "code" () =
      Except.error (AuthErr.repoError (RepoErr.uniqueViolation "users_email_key")) :=
  ⟨rfl, bootstrap_failure_propagates "s" 10 0 failRepo demoClient "code" () demoGoogleUser
    (RepoErr.uniqueViolation "users_email_key") () rfl rfl rfl⟩

/-- What a successful run of the production orchestrator on the new-user path
must look like: the uniqueness check passed, the result is the freshly created
user flagged new, and the store is the bootstrapped one. -/
lemma authenticate_new_user_elim (secret : String) (expiresIn now : Nat) (s0 : DBState)
    (client : String → Except String GoogleUserInfo) (code : String) (g : GoogleUserInfo)
    (s1 : DBState) (r : AuthenticateWithGoogleResult)
    (hc : client code = Except.ok g)
    (hres : findByProvider s0 "google" g.id = none)
    (hok : authenticateWithGoogle secret expiresIn now prismaRepo client code s0 =
      Except.ok (s1, r)) :
    providerTaken s0 "google" g.id = false ∧
    r = ⟨true, generateToken secret expiresIn s0.nextUserId now,
      ⟨s0.nextUserId, some g.email, some g.name, g.picture⟩⟩ ∧
    s1 = bootstrappedState s0 (registrationInput g) := by
  simp only [authenticateWithGoogle, hc, prismaRepo, hres] at hok
  rw [createUserWithAuthAndCharacter_characterization] at hok
  simp only [registrationInput] at hok
  by_cases h1 : emailTaken s0 (some g.email)
  · simp [h1] at hok
  · by_cases h2 : providerTaken s0 "google" g.id
    · simp [h1, h2] at hok
    · simp only [h1, h2, Bool.false_eq_true, if_false] at hok
      simp only [Except.ok.injEq, Prod.mk.injEq] at hok
      refine ⟨by simpa using h2, ?_, ?_⟩
      · exact hok.2.symm
      · rw [← hok.1]
        simp [bootstrappedState, registrationInput]

/-- After a bootstrap for (google, g.id) on a store with no such account, the
resolver finds the new link, and the included user carries the new user id. -/
lemma findByProvider_after_bootstrap (s0 : DBState) (g : GoogleUserInfo)
    (hpt : providerTaken s0 "google" g.id = false) :
    ∃ v, findByProvider (bootstrappedState s0 (registrationInput g)) "google" g.id =
      some ⟨⟨s0.nextAuthAccountId, "google", g.id, s0.nextUserId⟩, v⟩ ∧
      v.id = s0.nextUserId := by
  have hnone : s0.authAccounts.find?
      (fun a => a.provider == "google" && a.providerAccountId == g.id) = none := by
    rw [List.find?_eq_none]
    intro x hx
    have := List.any_eq_false.mp hpt x hx
    simpa using this
  cases hfind : s0.users.find? (fun x => x.id == s0.nextUserId) with
  | none =>
    refine ⟨⟨s0.nextUserId, some g.email, some g.name, g.picture⟩, ?_, rfl⟩
    simp [findByProvider, bootstrappedState, registrationInput, hnone, hfind]
  | some v =>
    refine ⟨v, ?_, by simpa using List.find?_some hfind⟩
    simp [findByProvider, bootstrappedState, registrationInput, hnone, hfind]

/-- C6: two sequential authentications resolving to the same external
identity — starting from a store with no link for it — give isNewUser true
then false, return the same user id both times, and the second call leaves
the store unchanged (no additional user or link row). -/
theorem no_duplicate_linking (secret : String) (expiresIn now1 now2 : Nat) (s0 : DBState)
    (client : String → Except String GoogleUserInfo) (code1 code2 : String)
    (g : GoogleUserInfo) (s1 : DBState) (r1 : AuthenticateWithGoogleResult)
    (hc1 : client code1 = Except.ok g) (hc2 : client code2 = Except.ok g)
    (hres : findByProvider s0 "google" g.id = none)
    (hok1 : authenticateWithGoogle secret expiresIn now1 prismaRepo client code1 s0 =
      Except.ok (s1, r1)) :
    r1.isNewUser = true ∧
    ∃ r2, authenticateWithGoogle secret expiresIn now2 prismaRepo client code2 s1 =
        Except.ok (s1, r2) ∧
      r2.isNewUser = false ∧ r2.user.id = r1.user.id := by
  obtain ⟨hpt, hr1, hs1⟩ :=
    authenticate_new_user_elim secret expiresIn now1 s0 client code1 g s1 r1 hc1 hres hok1
  obtain ⟨v, hfind, hvid⟩ := findByProvider_after_bootstrap s0 g hpt
  subst hs1
  refine ⟨by rw [hr1], ⟨false, generateToken secret expiresIn v.id now2, v⟩, ?_, rfl, ?_⟩
  · simp [authenticateWithGoogle, hc2, prismaRepo, hfind]
  · rw [hr1, hvid]

/-- C10: every user created on the new-user path is provisioned with exactly
one UserCharacter — code TRAECHAN, active, nicknamed トレちゃん — and the new
user row copies email, name and avatarUrl from the Google profile. -/
theorem new_user_provisioning (secret : String) (expiresIn now : Nat) (s0 : DBState)
    (client : String → Except String GoogleUserInfo) (code : String) (g : GoogleUserInfo)
    (s1 : DBState) (r : AuthenticateWithGoogleResult)
    (hc : client code = Except.ok g)
    (hres : findByProvider s0 "google" g.id = none)
    (hwf : ∀ c ∈ s0.userCharacters, c.userId ≠ s0.nextUserId)
    (hok : authenticateWithGoogle secret expiresIn now prismaRepo client code s0 =
      Except.ok (s1, r)) :
    r.isNewUser = true ∧
    r.user.email = some g.email ∧ r.user.name = some g.name ∧
    r.user.avatarUrl = g.picture ∧
    s1.userCharacters.filter (fun c => c.userId == r.user.id) =
      [⟨s0.nextUserCharacterId, CharacterCode.TRAECHAN, true, "トレちゃん", r.user.id⟩] := by
  obtain ⟨hpt, hr, hs1⟩ :=
    authenticate_new_user_elim secret expiresIn now s0 client code g s1 r hc hres hok
  subst hs1
  rw [hr]
  refine ⟨rfl, rfl, rfl, rfl, ?_⟩
  have hnil : s0.userCharacters.filter (fun c => c.userId == s0.nextUserId) = [] := by
    rw [List.filter_eq_nil_iff]
    intro c hc2
    simpa using hwf c hc2
  simp [bootstrappedState, registrationInput, List.filter_append, hnil]

/-- An empty store: no users, accounts or characters, counters at 1. -/
def demoState : DBState := ⟨[], [], [], 1, 1, 1⟩

/-- The store after the first demo authentication. -/
def demoState1 : DBState :=
  ⟨[⟨1, some "u@example.com", some "U", none⟩],
   [⟨1, "google", "abc123", 1⟩],
   [⟨1, CharacterCode.TRAECHAN, true, "トレちゃん", 1⟩], 2, 2, 2⟩

/-- The result of the first demo authentication. -/
def demoResult : AuthenticateWithGoogleResult :=
  ⟨true, generateToken "s" 10 1 0, ⟨1, some "u@example.com", some "U", none⟩⟩

theorem no_duplicate_linking_witness :
    demoResult.isNewUser = true ∧
    ∃ r2, authenticateWithGoogle "s" 10 0 prismaRepo demoClient "c2" demoState1 =
        Except.ok (demoState1, r2) ∧
      r2.isNewUser = false ∧ r2.user.id = demoResult.user.id :=
  no_duplicate_linking "s" 10 0 0 demoState demoClient "c" "c2" demoGoogleUser
    demoState1 demoResult rfl rfl (by decide) (by decide)

theorem new_user_provisioning_witness :
    demoResult.isNewUser = true ∧
    demoResult.user.email = some "u@example.com" ∧
    demoResult.user.name = some "U" ∧
    demoResult.user.avatarUrl = none ∧
    demoState1.userCharacters.filter (fun c => c.userId == demoResult.user.id) =
      [⟨1, CharacterCode.TRAECHAN, true, "トレちゃん", 1⟩] :=
  new_user_provisioning "s" 10 0 demoState demoClient "c" demoGoogleUser
    demoState1 demoResult rfl (by decide) (by simp [demoState]) (by decide)
